import Mathlib

/-!
Shallow embedding of the FuelEU Maritime compliance calculation engine
(the `ComplianceCalculator` class of this repository).

Real-number arithmetic is modelled over `ℚ`.  JavaScript
`Number(x.toFixed(f))` display rounding is modelled by `roundTo`
(round to `f` decimal digits, ties towards plus infinity, as ECMA-262
specifies for `toFixed`).  JavaScript truthiness guards on table lookups
(`!this.complianceTargets[year]`, `table[year] || fallback`) are modelled
by `truthyLookup`, which treats a missing entry or a zero entry as falsy.
Exceptions are modelled with `Except`.
-/

namespace FuelEU

/-- `Number(x.toFixed(f))`: round `x` to `f` decimal digits, ties towards
plus infinity (ECMA-262 `toFixed` picks the larger candidate on a tie). -/
def roundTo (f : ℕ) (x : ℚ) : ℚ := ((⌊x * 10 ^ f + 1 / 2⌋ : ℤ) : ℚ) / 10 ^ f

/-- Input vessel record: the two numeric fields the engine reads, plus the
identity/metadata fields that the object spread `{...vessel, ...}` forwards
untouched into the result. -/
structure Vessel where
  name : String
  imo : String
  vesselType : String
  pool : String
  owner : String
  fuelConsumption : ℚ
  ghgIntensity : ℚ
deriving DecidableEq

/-- `this.complianceTargets`: yearly FuelEU reduction targets (fractions). -/
def complianceTargets (year : ℕ) : Option ℚ :=
  if year = 2025 then some (2 / 100)
  else if year = 2026 then some (2 / 100)
  else if year = 2027 then some (2 / 100)
  else if year = 2028 then some (2 / 100)
  else if year = 2029 then some (2 / 100)
  else if year = 2030 then some (6 / 100)
  else if year = 2031 then some (6 / 100)
  else if year = 2032 then some (6 / 100)
  else none

/-- `this.referenceGHGIntensity`: 91.16 gCO2e/MJ baseline. -/
def referenceGHGIntensity : ℚ := 9116 / 100

/-- `this.penaltyRates`: EUR per tonne CO2eq deficit, defined 2025-2030. -/
def penaltyRates (year : ℕ) : Option ℚ :=
  if year = 2025 then some 640
  else if year = 2026 then some 640
  else if year = 2027 then some 640
  else if year = 2028 then some 640
  else if year = 2029 then some 640
  else if year = 2030 then some 640
  else none

/-- `this.bankingLimit`: 5% of annual fuel consumption. -/
def bankingLimit : ℚ := 5 / 100

/-- `this.borrowingLimit`: 5% of annual fuel consumption. -/
def borrowingLimit : ℚ := 5 / 100

/-- JavaScript truthiness of a numeric table lookup `table[year]`: an absent
year or a zero entry is falsy.  Mirrors guards such as
`if (!this.complianceTargets[year])` and fallbacks `table[year] || d`. -/
def truthyLookup (table : ℕ → Option ℚ) (year : ℕ) : Option ℚ :=
  match table year with
  | none => none
  | some t => if t = 0 then none else some t

/-- The engine's only failure mode:
`throw new Error("Invalid compliance year: ...")`. -/
inductive CalcError where
  | invalidYear (year : ℕ)
deriving DecidableEq

/-- `calculateComplianceScore(actualIntensity, targetIntensity)` (0-100). -/
def calculateComplianceScore (actualIntensity targetIntensity : ℚ) : ℚ :=
  if actualIntensity ≤ targetIntensity then
    min 100 (100 + (targetIntensity - actualIntensity) / targetIntensity * 20)
  else
    max 0 (100 - (actualIntensity - targetIntensity) / targetIntensity * 100)

/-- `targetIntensity = this.referenceGHGIntensity * (1 - target)`. -/
def rawTargetIntensity (target : ℚ) : ℚ := referenceGHGIntensity * (1 - target)

/-- `deviation = targetIntensity - vessel.ghgIntensity` (unrounded). -/
def rawDeviation (vessel : Vessel) (target : ℚ) : ℚ :=
  rawTargetIntensity target - vessel.ghgIntensity

/-- `complianceBalance = (deviation * vessel.fuelConsumption) / 1000000`
in tCO2eq, unrounded. -/
def rawComplianceBalance (vessel : Vessel) (target : ℚ) : ℚ :=
  rawDeviation vessel target * vessel.fuelConsumption / 1000000

/-- `const penaltyRate = this.penaltyRates[year] || this.penaltyRates[2030]`. -/
def effectivePenaltyRate (year : ℕ) : ℚ :=
  (truthyLookup penaltyRates year).getD ((penaltyRates 2030).getD 0)

/-- `potentialPenalty = complianceBalance < 0 ?
Math.abs(complianceBalance) * penaltyRate / 1000000 : 0`, unrounded. -/
def rawPotentialPenalty (vessel : Vessel) (year : ℕ) (target : ℚ) : ℚ :=
  if rawComplianceBalance vessel target < 0 then
    |rawComplianceBalance vessel target| * effectivePenaltyRate year / 1000000
  else 0

/-- The object `calculateVesselCompliance` returns: the spread input vessel
plus the computed fields, display-rounded exactly as in the source
(`complianceScore` is the only computed field the source does not round). -/
structure VesselComplianceResult where
  vessel : Vessel
  complianceYear : ℕ
  targetIntensity : ℚ
  deviation : ℚ
  deviationPercent : ℚ
  energyDeficit : ℚ
  energySurplus : ℚ
  complianceBalance : ℚ
  potentialPenalty : ℚ
  status : String
  complianceScore : ℚ
deriving DecidableEq

/-- Body of `calculateVesselCompliance(vessel, year)` once the year's target
is known to be present (the code past the invalid-year guard). -/
def vesselComplianceCore (vessel : Vessel) (year : ℕ) (target : ℚ) :
    VesselComplianceResult :=
  let targetIntensity := rawTargetIntensity target
  let deviation := rawDeviation vessel target
  let deviationPercent := deviation / targetIntensity * 100
  let complianceBalance := rawComplianceBalance vessel target
  let status := if complianceBalance < 0 then "non-compliant" else "compliant"
  let energyDeficit := max 0 (deviation * vessel.fuelConsumption)
  let energySurplus := max 0 (-deviation * vessel.fuelConsumption)
  let potentialPenalty := rawPotentialPenalty vessel year target
  { vessel := vessel
    complianceYear := year
    targetIntensity := roundTo 2 targetIntensity
    deviation := roundTo 3 deviation
    deviationPercent := roundTo 2 deviationPercent
    energyDeficit := roundTo 0 energyDeficit
    energySurplus := roundTo 0 energySurplus
    complianceBalance := roundTo 2 complianceBalance
    potentialPenalty := roundTo 2 potentialPenalty
    status := status
    complianceScore := calculateComplianceScore vessel.ghgIntensity targetIntensity }

/-- `calculateVesselCompliance(vessel, year)`: throws `InvalidYear` when the
target-table entry for `year` is falsy, otherwise returns the result record. -/
def calculateVesselCompliance (vessel : Vessel) (year : ℕ) :
    Except CalcError VesselComplianceResult :=
  match truthyLookup complianceTargets year with
  | none => .error (.invalidYear year)
  | some target => .ok (vesselComplianceCore vessel year target)

/-- The running totals accumulated by the loop inside
`calculatePoolCompliance`. -/
structure PoolAccum where
  totalEnergyConsumption : ℚ
  totalEmissions : ℚ
  totalEnergyDeficit : ℚ
  totalEnergySurplus : ℚ
  totalComplianceBalance : ℚ
  totalPotentialPenalty : ℚ
  compliantCount : ℕ
  nonCompliantCount : ℕ
  totalDeficitFromVessels : ℚ
  totalSurplusFromVessels : ℚ
deriving DecidableEq

/-- All accumulators start at zero. -/
def initPoolAccum : PoolAccum := ⟨0, 0, 0, 0, 0, 0, 0, 0, 0, 0⟩

/-- One iteration of the accumulation loop in `calculatePoolCompliance`:
energy totals come from the raw input fields, every other total from the
per-vessel result record. -/
def poolStep (year : ℕ) (target : ℚ) (acc : PoolAccum) (vessel : Vessel) :
    PoolAccum :=
  let result := vesselComplianceCore vessel year target
  { totalEnergyConsumption := acc.totalEnergyConsumption + vessel.fuelConsumption
    totalEmissions := acc.totalEmissions + vessel.fuelConsumption * vessel.ghgIntensity
    totalEnergyDeficit := acc.totalEnergyDeficit + result.energyDeficit
    totalEnergySurplus := acc.totalEnergySurplus + result.energySurplus
    totalComplianceBalance := acc.totalComplianceBalance + result.complianceBalance
    totalPotentialPenalty := acc.totalPotentialPenalty + result.potentialPenalty
    compliantCount :=
      if result.status = "compliant" then acc.compliantCount + 1 else acc.compliantCount
    nonCompliantCount :=
      if result.status = "compliant" then acc.nonCompliantCount else acc.nonCompliantCount + 1
    totalDeficitFromVessels :=
      if result.complianceBalance < 0 then
        acc.totalDeficitFromVessels + |result.complianceBalance|
      else acc.totalDeficitFromVessels
    totalSurplusFromVessels :=
      if result.complianceBalance < 0 then acc.totalSurplusFromVessels
      else if 0 < result.complianceBalance then
        acc.totalSurplusFromVessels + result.complianceBalance
      else acc.totalSurplusFromVessels }

/-- The `summary` object of `calculatePoolCompliance` / `getEmptyPoolResult`.
(The empty-pool result's extra `totalVesselPenalties: 0` field and the fact
that its `reductionTarget` is left as a string are presentation artifacts not
modelled; no other field differs.) -/
structure PoolSummary where
  totalVessels : ℕ
  compliantVessels : ℕ
  nonCompliantVessels : ℕ
  complianceRate : ℚ
  totalEnergyConsumption : ℚ
  totalEmissions : ℚ
  poolEnergyDeficit : ℚ
  poolEnergySurplus : ℚ
  netEnergyDeficit : ℚ
  netEnergySurplus : ℚ
  poolComplianceBalance : ℚ
  poolComplianceDeficit : ℚ
  poolComplianceSurplus : ℚ
  poolAverageIntensity : ℚ
  poolTargetIntensity : ℚ
  poolDeviation : ℚ
  poolCompliant : Bool
  poolComplianceScore : ℚ
  poolPotentialPenalty : ℚ
  totalPotentialPenalty : ℚ
  complianceYear : ℕ
  reductionTarget : ℚ
deriving DecidableEq

/-- `{ vessels: [...], summary: {...} }`. -/
structure PoolResult where
  vessels : List VesselComplianceResult
  summary : PoolSummary
deriving DecidableEq

/-- `getEmptyPoolResult(year)`: the well-defined empty-pool summary; its
target falls back to the 2025 entry when the year's entry is falsy. -/
def getEmptyPoolResult (year : ℕ) : PoolResult :=
  let target := (truthyLookup complianceTargets year).getD
    ((complianceTargets 2025).getD 0)
  { vessels := []
    summary :=
    { totalVessels := 0
      compliantVessels := 0
      nonCompliantVessels := 0
      complianceRate := 0
      totalEnergyConsumption := 0
      totalEmissions := 0
      poolEnergyDeficit := 0
      poolEnergySurplus := 0
      netEnergyDeficit := 0
      netEnergySurplus := 0
      poolComplianceBalance := 0
      poolComplianceDeficit := 0
      poolComplianceSurplus := 0
      poolAverageIntensity := 0
      poolTargetIntensity := referenceGHGIntensity * (1 - target)
      poolDeviation := 0
      poolCompliant := true
      poolComplianceScore := 0
      poolPotentialPenalty := 0
      totalPotentialPenalty := 0
      complianceYear := year
      reductionTarget := roundTo 1 (target * 100) } }

/-- The non-empty branch of `calculatePoolCompliance` once the year's target
is known: the accumulation loop followed by the pool-level metrics and the
display-rounded summary, exactly as in the source. -/
def poolComplianceResult (vessels : List Vessel) (year : ℕ) (target : ℚ) :
    PoolResult :=
  let acc := vessels.foldl (poolStep year target) initPoolAccum
  let vesselResults := vessels.map fun v => vesselComplianceCore v year target
  let poolAverageIntensity := acc.totalEmissions / acc.totalEnergyConsumption
  let poolTargetIntensity := rawTargetIntensity target
  let poolCompliant : Bool := 0 ≤ acc.totalComplianceBalance
  let netEnergyDeficit := max 0 (acc.totalEnergyDeficit - acc.totalEnergySurplus)
  let netEnergySurplus := max 0 (acc.totalEnergySurplus - acc.totalEnergyDeficit)
  let poolComplianceScore :=
    calculateComplianceScore poolAverageIntensity poolTargetIntensity
  { vessels := vesselResults
    summary :=
    { totalVessels := vessels.length
      compliantVessels := acc.compliantCount
      nonCompliantVessels := acc.nonCompliantCount
      complianceRate :=
        roundTo 1 ((acc.compliantCount : ℚ) / (vessels.length : ℚ) * 100)
      totalEnergyConsumption := roundTo 0 acc.totalEnergyConsumption
      totalEmissions := roundTo 0 acc.totalEmissions
      poolEnergyDeficit := roundTo 2 (acc.totalEnergyDeficit / 1000000)
      poolEnergySurplus := roundTo 2 (acc.totalEnergySurplus / 1000000)
      netEnergyDeficit := roundTo 2 (netEnergyDeficit / 1000000)
      netEnergySurplus := roundTo 2 (netEnergySurplus / 1000000)
      poolComplianceBalance := roundTo 2 acc.totalComplianceBalance
      poolComplianceDeficit := roundTo 2 acc.totalDeficitFromVessels
      poolComplianceSurplus := roundTo 2 acc.totalSurplusFromVessels
      poolAverageIntensity := roundTo 2 poolAverageIntensity
      poolTargetIntensity := roundTo 2 poolTargetIntensity
      poolDeviation := roundTo 2 (poolAverageIntensity - poolTargetIntensity)
      poolCompliant := poolCompliant
      poolComplianceScore := roundTo 1 poolComplianceScore
      poolPotentialPenalty :=
        if acc.totalComplianceBalance < 0 then
          roundTo 2 (|acc.totalComplianceBalance| * effectivePenaltyRate year / 1000000)
        else 0
      totalPotentialPenalty := roundTo 2 acc.totalPotentialPenalty
      complianceYear := year
      reductionTarget := roundTo 1 (target * 100) } }

/-- `calculatePoolCompliance(vessels, year)`: an empty list short-circuits to
the empty-pool result before any year validation; otherwise each vessel goes
through `calculateVesselCompliance` (whose invalid-year throw propagates) and
the totals are accumulated and display-rounded as in `poolComplianceResult`. -/
def calculatePoolCompliance (vessels : List Vessel) (year : ℕ) :
    Except CalcError PoolResult :=
  if vessels = [] then .ok (getEmptyPoolResult year)
  else
    match truthyLookup complianceTargets year with
    | none => .error (.invalidYear year)
    | some target => .ok (poolComplianceResult vessels year target)

/-- One entry that `calculateComplianceTrend` pushes per valid year. -/
structure TrendEntry where
  year : ℕ
  complianceRate : ℚ
  poolCompliant : Bool
  totalPenalty : ℚ
  reductionTarget : ℚ
  poolAverageIntensity : ℚ
  poolTargetIntensity : ℚ
deriving DecidableEq

/-- `calculateComplianceTrend(vessels, startYear, endYear)`: iterates the
years of `[startYear, endYear]`, silently skipping years whose target-table
entry is falsy; it never throws. -/
def calculateComplianceTrend (vessels : List Vessel) (startYear endYear : ℕ) :
    List TrendEntry :=
  (List.range' startYear (endYear + 1 - startYear)).filterMap fun year =>
    match truthyLookup complianceTargets year with
    | none => none
    | some _ =>
      match calculatePoolCompliance vessels year with
      | .error _ => none
      | .ok compliance =>
        some
        { year := year
          complianceRate := compliance.summary.complianceRate
          poolCompliant := compliance.summary.poolCompliant
          totalPenalty := compliance.summary.totalPotentialPenalty
          reductionTarget := compliance.summary.reductionTarget
          poolAverageIntensity := compliance.summary.poolAverageIntensity
          poolTargetIntensity := compliance.summary.poolTargetIntensity }

/-- The fixed qualitative recommendation texts of `suggestImprovements`; the
final entry carries the numbers interpolated into the template string. -/
inductive Suggestion where
  | maintainCurrentEfficiency
  | operationalEfficiency
  | energyManagementSystems
  | alternativeFuelBlending
  | engineUpgrade
  | energyRecovery
  | fuelTransition
  | retrofitOrReplacement
  | decarbonizationStrategy
  | targetRestatement (requiredReductionPercent targetIntensity : ℚ)
deriving DecidableEq

/-- The object `suggestImprovements` returns.  The compliant branch carries
no numeric fields, hence the `Option`s. -/
structure ImprovementAdvice where
  status : String
  requiredReduction : Option ℚ
  requiredReductionPercent : Option ℚ
  targetIntensity : Option ℚ
  suggestions : List Suggestion
deriving DecidableEq

/-- `suggestImprovements(vessel, year)`: inherits the invalid-year throw from
`calculateVesselCompliance`; buckets the required reduction (denominator: the
vessel's own intensity) into three fixed tiers. -/
def suggestImprovements (vessel : Vessel) (year : ℕ) :
    Except CalcError ImprovementAdvice := do
  let compliance ← calculateVesselCompliance vessel year
  if compliance.status = "compliant" then
    return {
      status := "compliant"
      requiredReduction := none
      requiredReductionPercent := none
      targetIntensity := none
      suggestions := [.maintainCurrentEfficiency] }
  else
    let target := (complianceTargets year).getD 0
    let targetIntensity := rawTargetIntensity target
    let requiredReduction := vessel.ghgIntensity - targetIntensity
    let requiredReductionPercent := requiredReduction / vessel.ghgIntensity * 100
    let tier : List Suggestion :=
      if requiredReductionPercent ≤ 5 then
        [.operationalEfficiency, .energyManagementSystems]
      else if requiredReductionPercent ≤ 15 then
        [.alternativeFuelBlending, .engineUpgrade, .energyRecovery]
      else
        [.fuelTransition, .retrofitOrReplacement, .decarbonizationStrategy]
    return {
      status := compliance.status
      requiredReduction := some (roundTo 2 requiredReduction)
      requiredReductionPercent := some (roundTo 1 requiredReductionPercent)
      targetIntensity := some (roundTo 2 targetIntensity)
      suggestions :=
        tier ++ [.targetRestatement (roundTo 1 requiredReductionPercent)
          (roundTo 2 targetIntensity)] }

/-- The object `calculateBankingBorrowing` returns. -/
structure BankingBorrowing where
  canBank : Bool
  bankingCapacity : ℚ
  canBorrow : Bool
  borrowingCapacity : ℚ
  bankingLimitMJ : ℚ
  borrowingLimitMJ : ℚ
deriving DecidableEq

/-- `calculateBankingBorrowing(vessel, year)`: capacities are capped by the
5% limits; note that they are gated on the display-rounded `energySurplus`
and `energyDeficit` fields of the vessel result. -/
def calculateBankingBorrowing (vessel : Vessel) (year : ℕ) :
    Except CalcError BankingBorrowing := do
  let compliance ← calculateVesselCompliance vessel year
  let bankingCapacity :=
    if 0 < compliance.energySurplus then
      min compliance.energySurplus (vessel.fuelConsumption * bankingLimit)
    else 0
  let borrowingCapacity :=
    if 0 < compliance.energyDeficit then
      min compliance.energyDeficit (vessel.fuelConsumption * borrowingLimit)
    else 0
  return {
    canBank := 0 < bankingCapacity
    bankingCapacity := roundTo 0 bankingCapacity
    canBorrow := 0 < borrowingCapacity
    borrowingCapacity := roundTo 0 borrowingCapacity
    bankingLimitMJ := roundTo 0 (vessel.fuelConsumption * bankingLimit)
    borrowingLimitMJ := roundTo 0 (vessel.fuelConsumption * borrowingLimit) }

/-! ## Basic lemmas about rounding and the static tables -/

theorem roundTo_int_div_hundred (m : ℤ) : roundTo 2 ((m : ℚ) / 100) = m / 100 := by
  unfold roundTo
  have h1 : ((m : ℚ) / 100) * 10 ^ 2 + 1 / 2 = (1 : ℚ) / 2 + m := by ring
  rw [h1, Int.floor_add_int]
  norm_num

theorem roundTo_two_exists_int (x : ℚ) : ∃ k : ℤ, roundTo 2 x = (k : ℚ) / 100 := by
  refine ⟨⌊x * 10 ^ 2 + 1 / 2⌋, ?_⟩
  unfold roundTo
  norm_num

theorem truthyTargets_1999 : truthyLookup complianceTargets 1999 = none := by
  norm_num [truthyLookup, complianceTargets]

theorem truthyTargets_2025 : truthyLookup complianceTargets 2025 = some (2 / 100) := by
  norm_num [truthyLookup, complianceTargets]

theorem truthyTargets_2031 : truthyLookup complianceTargets 2031 = some (6 / 100) := by
  norm_num [truthyLookup, complianceTargets]

theorem truthyTargets_2032 : truthyLookup complianceTargets 2032 = some (6 / 100) := by
  norm_num [truthyLookup, complianceTargets]

/-- Every target in the table is 2% or 6%. -/
theorem target_mem_of_truthyLookup {year : ℕ} {t : ℚ}
    (h : truthyLookup complianceTargets year = some t) :
    t = 2 / 100 ∨ t = 6 / 100 := by
  unfold truthyLookup at h
  rcases hc : complianceTargets year with _ | t0 <;> rw [hc] at h
  · simp at h
  · have ht0 : t0 = t := by
      by_cases h0 : t0 = 0 <;> simp [h0] at h
      tauto
    subst ht0
    unfold complianceTargets at hc
    repeat' split at hc
    all_goals simp_all

/-- All table targets give a positive raw target intensity. -/
theorem rawTargetIntensity_pos {year : ℕ} {t : ℚ}
    (h : truthyLookup complianceTargets year = some t) :
    0 < rawTargetIntensity t := by
  rcases target_mem_of_truthyLookup h with ht | ht <;>
    norm_num [ht, rawTargetIntensity, referenceGHGIntensity]

theorem effectivePenaltyRate_eq_640 (year : ℕ) : effectivePenaltyRate year = 640 := by
  have h2030 : penaltyRates 2030 = some 640 := by norm_num [penaltyRates]
  unfold effectivePenaltyRate
  rcases hp : penaltyRates year with _ | r
  · norm_num [truthyLookup, hp, h2030]
  · have hr : r = 640 := by
      unfold penaltyRates at hp
      repeat' split at hp
      all_goals simp_all
    subst hr
    norm_num [truthyLookup, hp, h2030]

/-! ## Lemmas about the compliance score -/

theorem score_eq_hundred_of_le {a t : ℚ} (ht : 0 < t) (h : a ≤ t) :
    calculateComplianceScore a t = 100 := by
  unfold calculateComplianceScore
  rw [if_pos h]
  have hs : 0 ≤ (t - a) / t * 20 := by
    apply mul_nonneg _ (by norm_num)
    exact div_nonneg (by linarith) ht.le
  exact min_eq_left (by linarith)

theorem score_nonneg (a t : ℚ) (ht : 0 < t) : 0 ≤ calculateComplianceScore a t := by
  unfold calculateComplianceScore
  split
  · have hs : 0 ≤ (t - a) / t * 20 := by
      apply mul_nonneg _ (by norm_num)
      have : a ≤ t := by assumption
      exact div_nonneg (by linarith) ht.le
    exact le_min (by norm_num) (by linarith)
  · exact le_max_left 0 _

theorem score_lt_hundred_of_gt {a t : ℚ} (ht : 0 < t) (h : t < a) :
    calculateComplianceScore a t < 100 := by
  unfold calculateComplianceScore
  rw [if_neg (not_le.mpr h)]
  have hd : 0 < (a - t) / t * 100 := by
    apply mul_pos _ (by norm_num)
    exact div_pos (by linarith) ht
  exact max_lt (by norm_num) (by linarith)

theorem score_eq_zero_of_two_mul_le {a t : ℚ} (ht : 0 < t) (h : 2 * t ≤ a) :
    calculateComplianceScore a t = 0 := by
  unfold calculateComplianceScore
  rw [if_neg (not_le.mpr (by linarith))]
  have hd : (1 : ℚ) ≤ (a - t) / t := (one_le_div ht).mpr (by linarith)
  exact max_eq_left (by nlinarith)

theorem score_pos_form {a t : ℚ} (ht : 0 < t) (h1 : t < a) (h2 : a < 2 * t) :
    calculateComplianceScore a t = 100 - (a - t) / t * 100 := by
  unfold calculateComplianceScore
  rw [if_neg (not_le.mpr h1)]
  have hd : (a - t) / t < 1 := (div_lt_one ht).mpr (by linarith)
  exact max_eq_right (by nlinarith)

theorem score_antitone {a1 a2 t : ℚ} (ht : 0 < t) (h : a1 ≤ a2) :
    calculateComplianceScore a2 t ≤ calculateComplianceScore a1 t := by
  by_cases h2 : a2 ≤ t
  · rw [score_eq_hundred_of_le ht (le_trans h h2), score_eq_hundred_of_le ht h2]
  · push_neg at h2
    by_cases h1 : a1 ≤ t
    · rw [score_eq_hundred_of_le ht h1]
      exact (score_lt_hundred_of_gt ht h2).le
    · push_neg at h1
      unfold calculateComplianceScore
      rw [if_neg (not_le.mpr h1), if_neg (not_le.mpr h2)]
      apply max_le_max le_rfl
      have : (a1 - t) / t ≤ (a2 - t) / t := by
        exact (div_le_div_iff_of_pos_right ht).mpr (by linarith)
      nlinarith

theorem score_strict_anti {a1 a2 t : ℚ} (ht : 0 < t) (h1 : t < a1) (h2 : a1 < a2)
    (h3 : a2 < 2 * t) :
    calculateComplianceScore a2 t < calculateComplianceScore a1 t := by
  rw [score_pos_form ht h1 (lt_trans h2 h3), score_pos_form ht (lt_trans h1 h2) h3]
  have : (a1 - t) / t < (a2 - t) / t := (div_lt_div_iff_of_pos_right ht).mpr (by linarith)
  nlinarith

/-! ## Projections of the per-vessel result -/

theorem core_vessel (v : Vessel) (year : ℕ) (t : ℚ) :
    (vesselComplianceCore v year t).vessel = v := rfl

theorem core_complianceBalance (v : Vessel) (year : ℕ) (t : ℚ) :
    (vesselComplianceCore v year t).complianceBalance =
      roundTo 2 (rawComplianceBalance v t) := rfl

theorem core_potentialPenalty (v : Vessel) (year : ℕ) (t : ℚ) :
    (vesselComplianceCore v year t).potentialPenalty =
      roundTo 2 (rawPotentialPenalty v year t) := rfl

theorem core_complianceScore (v : Vessel) (year : ℕ) (t : ℚ) :
    (vesselComplianceCore v year t).complianceScore =
      calculateComplianceScore v.ghgIntensity (rawTargetIntensity t) := rfl

theorem core_status (v : Vessel) (year : ℕ) (t : ℚ) :
    (vesselComplianceCore v year t).status =
      if rawComplianceBalance v t < 0 then "non-compliant" else "compliant" := rfl

/-! ## The per-vessel contributions to the deficit / surplus accumulators -/

/-- What one vessel adds to `totalDeficitFromVessels` in the pool loop. -/
def deficitContribution (v : Vessel) (t : ℚ) : ℚ :=
  if roundTo 2 (rawComplianceBalance v t) < 0 then
    |roundTo 2 (rawComplianceBalance v t)| else 0

/-- What one vessel adds to `totalSurplusFromVessels` in the pool loop. -/
def surplusContribution (v : Vessel) (t : ℚ) : ℚ :=
  if roundTo 2 (rawComplianceBalance v t) < 0 then 0
  else if 0 < roundTo 2 (rawComplianceBalance v t) then
    roundTo 2 (rawComplianceBalance v t) else 0

/-! ## The pool accumulation loop as sums over the vessel list -/

theorem poolFold_totalEnergyConsumption (year : ℕ) (t : ℚ) (vs : List Vessel)
    (acc : PoolAccum) :
    (vs.foldl (poolStep year t) acc).totalEnergyConsumption
      = acc.totalEnergyConsumption + (vs.map fun v => v.fuelConsumption).sum := by
  induction vs generalizing acc with
  | nil => simp
  | cons v tl ih =>
    rw [List.foldl_cons, ih, List.map_cons, List.sum_cons]
    simp only [poolStep]
    ring

theorem poolFold_totalEmissions (year : ℕ) (t : ℚ) (vs : List Vessel)
    (acc : PoolAccum) :
    (vs.foldl (poolStep year t) acc).totalEmissions
      = acc.totalEmissions + (vs.map fun v => v.fuelConsumption * v.ghgIntensity).sum := by
  induction vs generalizing acc with
  | nil => simp
  | cons v tl ih =>
    rw [List.foldl_cons, ih, List.map_cons, List.sum_cons]
    simp only [poolStep]
    ring

theorem poolFold_totalComplianceBalance (year : ℕ) (t : ℚ) (vs : List Vessel)
    (acc : PoolAccum) :
    (vs.foldl (poolStep year t) acc).totalComplianceBalance
      = acc.totalComplianceBalance
        + (vs.map fun v => roundTo 2 (rawComplianceBalance v t)).sum := by
  induction vs generalizing acc with
  | nil => simp
  | cons v tl ih =>
    rw [List.foldl_cons, ih, List.map_cons, List.sum_cons]
    simp only [poolStep, core_complianceBalance]
    ring

theorem poolFold_totalPotentialPenalty (year : ℕ) (t : ℚ) (vs : List Vessel)
    (acc : PoolAccum) :
    (vs.foldl (poolStep year t) acc).totalPotentialPenalty
      = acc.totalPotentialPenalty
        + (vs.map fun v => roundTo 2 (rawPotentialPenalty v year t)).sum := by
  induction vs generalizing acc with
  | nil => simp
  | cons v tl ih =>
    rw [List.foldl_cons, ih, List.map_cons, List.sum_cons]
    simp only [poolStep, core_potentialPenalty]
    ring

theorem poolFold_totalDeficitFromVessels (year : ℕ) (t : ℚ) (vs : List Vessel)
    (acc : PoolAccum) :
    (vs.foldl (poolStep year t) acc).totalDeficitFromVessels
      = acc.totalDeficitFromVessels + (vs.map fun v => deficitContribution v t).sum := by
  induction vs generalizing acc with
  | nil => simp
  | cons v tl ih =>
    rw [List.foldl_cons, ih, List.map_cons, List.sum_cons]
    by_cases hb : roundTo 2 (rawComplianceBalance v t) < 0 <;>
      simp only [poolStep, core_complianceBalance, deficitContribution, if_pos, if_neg,
        hb, if_true, if_false, ite_true, ite_false] <;> ring

theorem poolFold_totalSurplusFromVessels (year : ℕ) (t : ℚ) (vs : List Vessel)
    (acc : PoolAccum) :
    (vs.foldl (poolStep year t) acc).totalSurplusFromVessels
      = acc.totalSurplusFromVessels + (vs.map fun v => surplusContribution v t).sum := by
  induction vs generalizing acc with
  | nil => simp
  | cons v tl ih =>
    rw [List.foldl_cons, ih, List.map_cons, List.sum_cons]
    by_cases hb : roundTo 2 (rawComplianceBalance v t) < 0
    · simp only [poolStep, core_complianceBalance, surplusContribution, hb, ite_true]
      ring
    · by_cases hpos : 0 < roundTo 2 (rawComplianceBalance v t) <;>
        simp only [poolStep, core_complianceBalance, surplusContribution, hb, hpos,
          ite_true, ite_false] <;> ring

/-! ## Concrete vessels used for evaluations and witnesses -/

/-- The spec's compliant concrete scenario: 45000 MJ at 89.25 gCO2e/MJ. -/
def sampleVesselClean : Vessel :=
  ⟨"Aurora", "IMO1000001", "bulk", "Pool A", "OwnerA", 45000, 8925 / 100⟩

/-- The spec's non-compliant concrete scenario: 28000 MJ at 95.12 gCO2e/MJ. -/
def sampleVesselDirty : Vessel :=
  ⟨"Borealis", "IMO1000002", "tanker", "Pool A", "OwnerA", 28000, 9512 / 100⟩

theorem vesselCompliance_clean_2025 : calculateVesselCompliance sampleVesselClean 2025 =
    .ok (vesselComplianceCore sampleVesselClean 2025 (2 / 100)) := by
  simp [calculateVesselCompliance, truthyTargets_2025]

theorem vesselCompliance_dirty_2025 : calculateVesselCompliance sampleVesselDirty 2025 =
    .ok (vesselComplianceCore sampleVesselDirty 2025 (2 / 100)) := by
  simp [calculateVesselCompliance, truthyTargets_2025]

/-- C1.  The claim states `energyDeficit = max(0, fuelConsumption *
(ghgIntensity - targetIntensity))` and `energySurplus = max(0,
fuelConsumption * (targetIntensity - ghgIntensity))`.  The code computes the
two with the labels swapped: on the spec's own non-compliant scenario
(28000 MJ at 95.12 against target 89.3368) the code returns
`energyDeficit = 0` and `energySurplus = 161930`, while the claim's formulas
give 161929.6 and 0 respectively, so the dirty, non-compliant vessel is
granted banking capacity (`canBank = true`) instead of borrowing capacity —
contradicting the code's own comments ("Banking capacity (for compliant
vessels with surplus)"). -/
theorem energyPair_swapped_in_code :
    (calculateVesselCompliance sampleVesselDirty 2025).map
        (fun r => (r.energyDeficit, r.energySurplus, r.status)) =
      Except.ok ((0 : ℚ), (161930 : ℚ), "non-compliant") ∧
    (calculateBankingBorrowing sampleVesselDirty 2025).map
        (fun b => (b.canBank, b.canBorrow, b.bankingCapacity, b.borrowingCapacity)) =
      Except.ok (true, false, (1400 : ℚ), (0 : ℚ)) ∧
    max 0 (sampleVesselDirty.fuelConsumption *
        (sampleVesselDirty.ghgIntensity - rawTargetIntensity (2 / 100))) = 1619296 / 10 ∧
    max 0 (sampleVesselDirty.fuelConsumption *
        (rawTargetIntensity (2 / 100) - sampleVesselDirty.ghgIntensity)) = 0 := by
  refine ⟨?_, ?_, ?_, ?_⟩
  · rw [vesselCompliance_dirty_2025]
    simp only [Except.map]
    norm_num [vesselComplianceCore, rawDeviation, rawTargetIntensity, rawComplianceBalance,
      referenceGHGIntensity, sampleVesselDirty, roundTo, max_def, Int.floor_eq_iff]
  · simp only [calculateBankingBorrowing, vesselCompliance_dirty_2025, Except.bind, bind,
      Except.map, pure, Except.pure]
    norm_num [vesselComplianceCore, rawDeviation, rawTargetIntensity, rawComplianceBalance,
      referenceGHGIntensity, sampleVesselDirty, bankingLimit, borrowingLimit,
      roundTo, max_def, min_def, Int.floor_eq_iff]
  · norm_num [sampleVesselDirty, rawTargetIntensity, referenceGHGIntensity, max_def]
  · norm_num [sampleVesselDirty, rawTargetIntensity, referenceGHGIntensity, max_def]

/-- C3, counterexample.  Not every public operation rejects an invalid year:
`calculatePoolCompliance` on an empty vessel list returns the empty-pool
result for the invalid year 1999 instead of an error, and
`calculateComplianceTrend` silently skips the invalid year instead of
signalling. -/
theorem invalidYear_not_universal :
    calculatePoolCompliance [] 1999 = Except.ok (getEmptyPoolResult 1999) ∧
    calculateComplianceTrend [sampleVesselClean] 1999 1999 = [] := by
  constructor
  · simp [calculatePoolCompliance]
  · simp [calculateComplianceTrend, truthyTargets_1999]

/-- C3, amended.  For a year absent from the target table, the operations
that actually reach the year guard — `calculateVesselCompliance`,
`calculatePoolCompliance` on a non-empty list, `suggestImprovements` and
`calculateBankingBorrowing` — signal `InvalidYear` and produce no partial
result; but `calculatePoolCompliance` on an empty list returns the
empty-pool result (falling back to the 2025 target), and
`calculateComplianceTrend` skips the invalid years and returns no entry for
them. -/
theorem invalidYear_amended (year : ℕ) (v : Vessel) (vs : List Vessel)
    (hy : truthyLookup complianceTargets year = none) (hvs : vs ≠ []) :
    calculateVesselCompliance v year = .error (.invalidYear year) ∧
    calculatePoolCompliance vs year = .error (.invalidYear year) ∧
    suggestImprovements v year = .error (.invalidYear year) ∧
    calculateBankingBorrowing v year = .error (.invalidYear year) ∧
    calculatePoolCompliance [] year = .ok (getEmptyPoolResult year) ∧
    calculateComplianceTrend vs year year = [] := by
  have hvc : calculateVesselCompliance v year = .error (.invalidYear year) := by
    simp [calculateVesselCompliance, hy]
  refine ⟨hvc, ?_, ?_, ?_, ?_, ?_⟩
  · simp [calculatePoolCompliance, hvs, hy]
  · simp [suggestImprovements, hvc, Except.bind, bind]
  · simp [calculateBankingBorrowing, hvc, Except.bind, bind]
  · simp [calculatePoolCompliance]
  · simp [calculateComplianceTrend, hy]

/-- C3, witness for the amended theorem at year 1999. -/
theorem invalidYear_amended_witness :
    calculateVesselCompliance sampleVesselClean 1999 = .error (.invalidYear 1999) ∧
    calculatePoolCompliance [sampleVesselClean] 1999 = .error (.invalidYear 1999) ∧
    suggestImprovements sampleVesselClean 1999 = .error (.invalidYear 1999) ∧
    calculateBankingBorrowing sampleVesselClean 1999 = .error (.invalidYear 1999) ∧
    calculatePoolCompliance [] 1999 = .ok (getEmptyPoolResult 1999) ∧
    calculateComplianceTrend [sampleVesselClean] 1999 1999 = [] :=
  invalidYear_amended 1999 sampleVesselClean [sampleVesselClean]
    truthyTargets_1999 (by simp)

/-- C4.  For a positive target intensity the score function is exactly 100
on the whole compliant side `actual ≤ target` (the +20% bonus is capped at
100, and at the boundary both branch formulas evaluate to exactly 100, so
the piecewise function is continuous there), lies in `[0, 100)` on the
non-compliant side, and saturates to 0 for large deficits
(`actual ≥ 2 * target`). -/
theorem score_boundary_and_caps (t : ℚ) (ht : 0 < t) :
    (∀ a, a ≤ t → calculateComplianceScore a t = 100) ∧
    min 100 (100 + (t - t) / t * 20) = 100 ∧
    max 0 (100 - (t - t) / t * 100) = 100 ∧
    (∀ a, t < a → 0 ≤ calculateComplianceScore a t ∧ calculateComplianceScore a t < 100) ∧
    (∀ a, 2 * t ≤ a → calculateComplianceScore a t = 0) :=
  ⟨fun _ ha => score_eq_hundred_of_le ht ha,
    by norm_num,
    by norm_num,
    fun a ha => ⟨score_nonneg a t ht, score_lt_hundred_of_gt ht ha⟩,
    fun _ ha => score_eq_zero_of_two_mul_le ht ha⟩

/-- C4, witness at the 2025 target intensity 89.3368. -/
theorem score_boundary_and_caps_witness :
    calculateComplianceScore (893368 / 10000) (893368 / 10000) = 100 ∧
    calculateComplianceScore 89 (893368 / 10000) = 100 ∧
    (0 ≤ calculateComplianceScore 95 (893368 / 10000) ∧
      calculateComplianceScore 95 (893368 / 10000) < 100) ∧
    calculateComplianceScore 200 (893368 / 10000) = 0 := by
  have h := score_boundary_and_caps (893368 / 10000) (by norm_num)
  exact ⟨h.1 _ le_rfl, h.1 89 (by norm_num), h.2.2.2.1 95 (by norm_num),
    h.2.2.2.2 200 (by norm_num)⟩

/-- C5.  For a fixed positive fuel consumption and a fixed valid year,
increasing `ghgIntensity` strictly decreases the (unrounded) compliance
balance computed by `calculateVesselCompliance`, makes the returned
`complianceScore` non-increasing, and strictly decreases it once both
intensities lie strictly between the saturation regions (above the target,
below twice the target). -/
theorem ghg_monotonicity (v1 v2 : Vessel) (year : ℕ) (t : ℚ)
    (r1 r2 : VesselComplianceResult)
    (hy : truthyLookup complianceTargets year = some t)
    (hfuel : 0 < v1.fuelConsumption)
    (hsame : v2.fuelConsumption = v1.fuelConsumption)
    (hghg : v1.ghgIntensity < v2.ghgIntensity)
    (h1 : calculateVesselCompliance v1 year = .ok r1)
    (h2 : calculateVesselCompliance v2 year = .ok r2) :
    rawComplianceBalance v2 t < rawComplianceBalance v1 t ∧
    r2.complianceScore ≤ r1.complianceScore ∧
    (rawTargetIntensity t < v1.ghgIntensity →
      v2.ghgIntensity < 2 * rawTargetIntensity t →
      r2.complianceScore < r1.complianceScore) := by
  have ht : 0 < rawTargetIntensity t := rawTargetIntensity_pos hy
  have e1 : vesselComplianceCore v1 year t = r1 := by
    simpa [calculateVesselCompliance, hy] using h1
  have e2 : vesselComplianceCore v2 year t = r2 := by
    simpa [calculateVesselCompliance, hy] using h2
  subst e1
  subst e2
  rw [core_complianceScore, core_complianceScore]
  refine ⟨?_, ?_, ?_⟩
  · unfold rawComplianceBalance rawDeviation
    rw [hsame]
    rw [div_lt_div_iff_of_pos_right (by norm_num : (0 : ℚ) < 1000000)]
    exact mul_lt_mul_of_pos_right (sub_lt_sub_left hghg _) hfuel
  · exact score_antitone ht hghg.le
  · intro hgt hlt
    exact score_strict_anti ht hgt hghg hlt

/-- A vessel between target and twice the target, for the C5 witness. -/
def vMono1 : Vessel :=
  ⟨"Borealis", "IMO1000002", "tanker", "Pool A", "OwnerA", 45000, 9512 / 100⟩

/-- A dirtier vessel with the same fuel consumption, for the C5 witness. -/
def vMono2 : Vessel :=
  ⟨"Callisto", "IMO1000003", "tanker", "Pool A", "OwnerA", 45000, 100⟩

/-- C5, witness: at 45000 MJ and year 2025, raising the intensity from 95.12
to 100 strictly lowers both the raw balance and the score. -/
theorem ghg_monotonicity_witness :
    rawComplianceBalance vMono2 (2 / 100) < rawComplianceBalance vMono1 (2 / 100) ∧
    (vesselComplianceCore vMono2 2025 (2 / 100)).complianceScore <
      (vesselComplianceCore vMono1 2025 (2 / 100)).complianceScore := by
  have h := ghg_monotonicity vMono1 vMono2 2025 (2 / 100)
    (vesselComplianceCore vMono1 2025 (2 / 100))
    (vesselComplianceCore vMono2 2025 (2 / 100))
    truthyTargets_2025
    (by norm_num [vMono1])
    (by norm_num [vMono1, vMono2])
    (by norm_num [vMono1, vMono2])
    (by simp [calculateVesselCompliance, truthyTargets_2025])
    (by simp [calculateVesselCompliance, truthyTargets_2025])
  refine ⟨h.1, h.2.2 ?_ ?_⟩
  · norm_num [vMono1, rawTargetIntensity, referenceGHGIntensity]
  · norm_num [vMono2, rawTargetIntensity, referenceGHGIntensity]

/-- C10.  For every year present in the target table, the empty-pool summary
reports `poolCompliant = true` yet `poolComplianceScore = 0`: the score is a
hard-coded zero, not the value `calculateComplianceScore` would produce on
the summary's own intensity pair, which is 100. -/
theorem emptyPool_score_zero (year : ℕ) (t : ℚ)
    (hy : truthyLookup complianceTargets year = some t) :
    calculatePoolCompliance [] year = .ok (getEmptyPoolResult year) ∧
    (getEmptyPoolResult year).summary.poolCompliant = true ∧
    (getEmptyPoolResult year).summary.poolComplianceScore = 0 ∧
    calculateComplianceScore (getEmptyPoolResult year).summary.poolAverageIntensity
      (getEmptyPoolResult year).summary.poolTargetIntensity = 100 := by
  have htp : (getEmptyPoolResult year).summary.poolTargetIntensity =
      rawTargetIntensity t := by
    simp [getEmptyPoolResult, hy, rawTargetIntensity]
  have h0 : (getEmptyPoolResult year).summary.poolAverageIntensity = 0 := rfl
  refine ⟨by simp [calculatePoolCompliance], rfl, rfl, ?_⟩
  rw [h0, htp]
  exact score_eq_hundred_of_le (rawTargetIntensity_pos hy) (rawTargetIntensity_pos hy).le

/-- C10, witness at year 2025. -/
theorem emptyPool_score_zero_witness :
    calculatePoolCompliance [] 2025 = .ok (getEmptyPoolResult 2025) ∧
    (getEmptyPoolResult 2025).summary.poolCompliant = true ∧
    (getEmptyPoolResult 2025).summary.poolComplianceScore = 0 ∧
    calculateComplianceScore (getEmptyPoolResult 2025).summary.poolAverageIntensity
      (getEmptyPoolResult 2025).summary.poolTargetIntensity = 100 :=
  emptyPool_score_zero 2025 (2 / 100) truthyTargets_2025

/-! ## Extraction lemmas for the pool result -/

theorem calculatePoolCompliance_ok {vs : List Vessel} {year : ℕ} {t : ℚ}
    {p : PoolResult} (hvs : vs ≠ [])
    (hy : truthyLookup complianceTargets year = some t)
    (hp : calculatePoolCompliance vs year = .ok p) :
    p = poolComplianceResult vs year t := by
  unfold calculatePoolCompliance at hp
  rw [if_neg hvs, hy] at hp
  exact (Except.ok.inj hp).symm

theorem poolResult_vessels (vs : List Vessel) (year : ℕ) (t : ℚ) :
    (poolComplianceResult vs year t).vessels =
      vs.map fun v => vesselComplianceCore v year t := rfl

theorem poolResult_totalEnergyConsumption (vs : List Vessel) (year : ℕ) (t : ℚ) :
    (poolComplianceResult vs year t).summary.totalEnergyConsumption =
      roundTo 0 (vs.foldl (poolStep year t) initPoolAccum).totalEnergyConsumption := rfl

theorem poolResult_totalEmissions (vs : List Vessel) (year : ℕ) (t : ℚ) :
    (poolComplianceResult vs year t).summary.totalEmissions =
      roundTo 0 (vs.foldl (poolStep year t) initPoolAccum).totalEmissions := rfl

theorem poolResult_poolComplianceBalance (vs : List Vessel) (year : ℕ) (t : ℚ) :
    (poolComplianceResult vs year t).summary.poolComplianceBalance =
      roundTo 2 (vs.foldl (poolStep year t) initPoolAccum).totalComplianceBalance := rfl

theorem poolResult_poolComplianceDeficit (vs : List Vessel) (year : ℕ) (t : ℚ) :
    (poolComplianceResult vs year t).summary.poolComplianceDeficit =
      roundTo 2 (vs.foldl (poolStep year t) initPoolAccum).totalDeficitFromVessels := rfl

theorem poolResult_poolComplianceSurplus (vs : List Vessel) (year : ℕ) (t : ℚ) :
    (poolComplianceResult vs year t).summary.poolComplianceSurplus =
      roundTo 2 (vs.foldl (poolStep year t) initPoolAccum).totalSurplusFromVessels := rfl

theorem poolResult_totalPotentialPenalty (vs : List Vessel) (year : ℕ) (t : ℚ) :
    (poolComplianceResult vs year t).summary.totalPotentialPenalty =
      roundTo 2 (vs.foldl (poolStep year t) initPoolAccum).totalPotentialPenalty := rfl

theorem poolResult_poolAverageIntensity (vs : List Vessel) (year : ℕ) (t : ℚ) :
    (poolComplianceResult vs year t).summary.poolAverageIntensity =
      roundTo 2 ((vs.foldl (poolStep year t) initPoolAccum).totalEmissions /
        (vs.foldl (poolStep year t) initPoolAccum).totalEnergyConsumption) := rfl

theorem poolResult_poolComplianceScore (vs : List Vessel) (year : ℕ) (t : ℚ) :
    (poolComplianceResult vs year t).summary.poolComplianceScore =
      roundTo 1 (calculateComplianceScore
        ((vs.foldl (poolStep year t) initPoolAccum).totalEmissions /
          (vs.foldl (poolStep year t) initPoolAccum).totalEnergyConsumption)
        (rawTargetIntensity t)) := rfl

/-- C8.  For the years of the target table beyond the penalty table's last
entry (2031 and 2032), the penalty rate falls back to the 2030 rate of 640,
and the reported `potentialPenalty` of a deficit vessel is
`|complianceBalance| * 640 / 1e6` (display-rounded to 2 decimals). -/
theorem penaltyRate_year_fallback (year : ℕ) (v : Vessel)
    (hy : year = 2031 ∨ year = 2032)
    (hb : rawComplianceBalance v (6 / 100) < 0) :
    penaltyRates year = none ∧
    penaltyRates 2030 = some 640 ∧
    effectivePenaltyRate year = effectivePenaltyRate 2030 ∧
    (calculateVesselCompliance v year).map (fun r => r.potentialPenalty) =
      .ok (roundTo 2 (|rawComplianceBalance v (6 / 100)| * 640 / 1000000)) := by
  have hpen : ∀ r, (vesselComplianceCore v year (6 / 100)).potentialPenalty = r →
      roundTo 2 (rawPotentialPenalty v year (6 / 100)) = r := fun r h => h
  rcases hy with h | h <;> subst h <;>
    refine ⟨by norm_num [penaltyRates], by norm_num [penaltyRates],
      by rw [effectivePenaltyRate_eq_640, effectivePenaltyRate_eq_640], ?_⟩
  · simp only [calculateVesselCompliance, truthyTargets_2031, Except.map,
      core_potentialPenalty, Except.ok.injEq]
    rw [rawPotentialPenalty, if_pos hb, effectivePenaltyRate_eq_640]
  · simp only [calculateVesselCompliance, truthyTargets_2032, Except.map,
      core_potentialPenalty, Except.ok.injEq]
    rw [rawPotentialPenalty, if_pos hb, effectivePenaltyRate_eq_640]

/-- C8, witness: the spec's deficit vessel in year 2031. -/
theorem penaltyRate_year_fallback_witness :
    penaltyRates 2031 = none ∧
    penaltyRates 2030 = some 640 ∧
    effectivePenaltyRate 2031 = effectivePenaltyRate 2030 ∧
    (calculateVesselCompliance sampleVesselDirty 2031).map (fun r => r.potentialPenalty) =
      .ok (roundTo 2 (|rawComplianceBalance sampleVesselDirty (6 / 100)| * 640 / 1000000)) :=
  penaltyRate_year_fallback 2031 sampleVesselDirty (Or.inl rfl)
    (by norm_num [rawComplianceBalance, rawDeviation, rawTargetIntensity,
      referenceGHGIntensity, sampleVesselDirty])

/-- C9.  The engine is pure: results are new records, the input vessel is
embedded unchanged (all identity/metadata fields included) in the per-vessel
result, and the pool result's vessel list is exactly the input list mapped
through the per-vessel calculation, in order. -/
theorem inputs_pass_through :
    (∀ (v : Vessel) (year : ℕ) (r : VesselComplianceResult),
        calculateVesselCompliance v year = .ok r → r.vessel = v) ∧
    (∀ (vs : List Vessel) (year : ℕ) (p : PoolResult),
        calculatePoolCompliance vs year = .ok p →
          p.vessels.map (fun r => r.vessel) = vs) := by
  constructor
  · intro v year r h
    unfold calculateVesselCompliance at h
    rcases hy : truthyLookup complianceTargets year with _ | t <;> rw [hy] at h
    · cases h
    · rw [← Except.ok.inj h, core_vessel]
  · intro vs year p h
    by_cases hvs : vs = []
    · subst hvs
      unfold calculatePoolCompliance at h
      rw [if_pos rfl] at h
      rw [← Except.ok.inj h]
      rfl
    · unfold calculatePoolCompliance at h
      rw [if_neg hvs] at h
      rcases hy : truthyLookup complianceTargets year with _ | t <;> rw [hy] at h
      · cases h
      · rw [← Except.ok.inj h, poolResult_vessels, List.map_map]
        have hc : ((fun r : VesselComplianceResult => r.vessel) ∘
            fun v => vesselComplianceCore v year t) = id := by
          funext v
          rfl
        rw [hc, List.map_id]

/-- C9, witness: the clean sample vessel at 2025 and the empty pool. -/
theorem inputs_pass_through_witness :
    (vesselComplianceCore sampleVesselClean 2025 (2 / 100)).vessel = sampleVesselClean ∧
    (getEmptyPoolResult 2025).vessels.map (fun r => r.vessel) = [] :=
  ⟨inputs_pass_through.1 sampleVesselClean 2025 _ vesselCompliance_clean_2025,
    inputs_pass_through.2 [] 2025 _ (by simp [calculatePoolCompliance])⟩

/-! ## Everything the pool loop adds to the balance accumulators is an
integer number of hundredths, so the final display rounding is the identity
on those totals. -/

theorem list_sum_div_hundred (f : Vessel → ℚ) (vs : List Vessel)
    (h : ∀ v, ∃ k : ℤ, f v = (k : ℚ) / 100) :
    ∃ m : ℤ, (vs.map f).sum = (m : ℚ) / 100 := by
  induction vs with
  | nil => exact ⟨0, by simp⟩
  | cons v tl ih =>
    obtain ⟨k, hk⟩ := h v
    obtain ⟨m, hm⟩ := ih
    refine ⟨k + m, ?_⟩
    rw [List.map_cons, List.sum_cons, hk, hm]
    push_cast
    ring

theorem deficitContribution_exists_int (v : Vessel) (t : ℚ) :
    ∃ k : ℤ, deficitContribution v t = (k : ℚ) / 100 := by
  obtain ⟨k, hk⟩ := roundTo_two_exists_int (rawComplianceBalance v t)
  unfold deficitContribution
  rw [hk]
  split
  · exact ⟨|k|, by rw [abs_div]; push_cast [abs_of_pos (by norm_num : (0:ℚ) < 100)]; ring⟩
  · exact ⟨0, by norm_num⟩

theorem surplusContribution_exists_int (v : Vessel) (t : ℚ) :
    ∃ k : ℤ, surplusContribution v t = (k : ℚ) / 100 := by
  obtain ⟨k, hk⟩ := roundTo_two_exists_int (rawComplianceBalance v t)
  unfold surplusContribution
  rw [hk]
  split
  · exact ⟨0, by norm_num⟩
  · split
    · exact ⟨k, rfl⟩
    · exact ⟨0, by norm_num⟩

/-- Pointwise, a vessel's rounded balance is its surplus contribution minus
its deficit contribution. -/
theorem contribution_split (v : Vessel) (t : ℚ) :
    roundTo 2 (rawComplianceBalance v t) =
      surplusContribution v t - deficitContribution v t := by
  unfold surplusContribution deficitContribution
  rcases lt_trichotomy (roundTo 2 (rawComplianceBalance v t)) 0 with h | h | h
  · rw [if_pos h, if_pos h, abs_of_neg h]
    ring
  · rw [h]
    norm_num
  · rw [if_neg (not_lt.mpr h.le), if_neg (not_lt.mpr h.le), if_pos h]
    ring

theorem map_sum_balance_split (vs : List Vessel) (t : ℚ) :
    (vs.map fun v => roundTo 2 (rawComplianceBalance v t)).sum =
      (vs.map fun v => surplusContribution v t).sum -
        (vs.map fun v => deficitContribution v t).sum := by
  induction vs with
  | nil => simp
  | cons v tl ih =>
    simp only [List.map_cons, List.sum_cons]
    rw [ih, contribution_split]
    ring

/-- C6.  In every non-empty pool summary the signed identity
`poolComplianceBalance = poolComplianceSurplus - poolComplianceDeficit`
holds exactly, where the deficit total sums `|complianceBalance|` over the
vessels with negative balance and the surplus total sums the positive
balances, each accumulated independently of the signed total. -/
theorem pool_signed_identity (vs : List Vessel) (year : ℕ) (t : ℚ)
    (p : PoolResult) (hvs : vs ≠ [])
    (hy : truthyLookup complianceTargets year = some t)
    (hp : calculatePoolCompliance vs year = .ok p) :
    p.summary.poolComplianceDeficit = (vs.map fun v => deficitContribution v t).sum ∧
    p.summary.poolComplianceSurplus = (vs.map fun v => surplusContribution v t).sum ∧
    p.summary.poolComplianceBalance =
      p.summary.poolComplianceSurplus - p.summary.poolComplianceDeficit := by
  obtain rfl := calculatePoolCompliance_ok hvs hy hp
  obtain ⟨mD, hmD⟩ := list_sum_div_hundred _ vs (deficitContribution_exists_int · t)
  obtain ⟨mS, hmS⟩ := list_sum_div_hundred _ vs (surplusContribution_exists_int · t)
  have hD : (poolComplianceResult vs year t).summary.poolComplianceDeficit =
      (vs.map fun v => deficitContribution v t).sum := by
    rw [poolResult_poolComplianceDeficit, poolFold_totalDeficitFromVessels]
    show roundTo 2 (0 + _) = _
    rw [zero_add, hmD, roundTo_int_div_hundred]
  have hS : (poolComplianceResult vs year t).summary.poolComplianceSurplus =
      (vs.map fun v => surplusContribution v t).sum := by
    rw [poolResult_poolComplianceSurplus, poolFold_totalSurplusFromVessels]
    show roundTo 2 (0 + _) = _
    rw [zero_add, hmS, roundTo_int_div_hundred]
  refine ⟨hD, hS, ?_⟩
  rw [poolResult_poolComplianceBalance, poolFold_totalComplianceBalance]
  show roundTo 2 (0 + _) = _
  rw [zero_add, map_sum_balance_split, hmD, hmS, hD, hS, hmD, hmS]
  have hcast : (mS : ℚ) / 100 - (mD : ℚ) / 100 = ((mS - mD : ℤ) : ℚ) / 100 := by
    push_cast
    ring
  rw [hcast, roundTo_int_div_hundred]

/-- C6, witness: the clean and dirty sample vessels pooled in 2025. -/
theorem pool_signed_identity_witness :
    (poolComplianceResult [sampleVesselClean, sampleVesselDirty] 2025 (2 / 100)).summary.poolComplianceDeficit
      = ([sampleVesselClean, sampleVesselDirty].map fun v => deficitContribution v (2 / 100)).sum ∧
    (poolComplianceResult [sampleVesselClean, sampleVesselDirty] 2025 (2 / 100)).summary.poolComplianceSurplus
      = ([sampleVesselClean, sampleVesselDirty].map fun v => surplusContribution v (2 / 100)).sum ∧
    (poolComplianceResult [sampleVesselClean, sampleVesselDirty] 2025 (2 / 100)).summary.poolComplianceBalance
      = (poolComplianceResult [sampleVesselClean, sampleVesselDirty] 2025 (2 / 100)).summary.poolComplianceSurplus
        - (poolComplianceResult [sampleVesselClean, sampleVesselDirty] 2025 (2 / 100)).summary.poolComplianceDeficit :=
  pool_signed_identity [sampleVesselClean, sampleVesselDirty] 2025 (2 / 100) _
    (by simp) truthyTargets_2025 (by simp [calculatePoolCompliance, truthyTargets_2025])

/-- C7.  In every non-empty pool, `poolAverageIntensity` is the
fuel-weighted mean `Σ (fuel * ghg) / Σ fuel` of the raw inputs (not an
arithmetic mean of intensities), and `poolComplianceScore` is
`calculateComplianceScore` applied to exactly this weighted mean against the
year's raw target intensity (then display-rounded to one decimal). -/
theorem pool_weighted_average (vs : List Vessel) (year : ℕ) (t : ℚ)
    (p : PoolResult) (hvs : vs ≠ [])
    (hy : truthyLookup complianceTargets year = some t)
    (hp : calculatePoolCompliance vs year = .ok p) :
    p.summary.poolAverageIntensity =
      roundTo 2 ((vs.map fun v => v.fuelConsumption * v.ghgIntensity).sum /
        (vs.map fun v => v.fuelConsumption).sum) ∧
    p.summary.poolComplianceScore =
      roundTo 1 (calculateComplianceScore
        ((vs.map fun v => v.fuelConsumption * v.ghgIntensity).sum /
          (vs.map fun v => v.fuelConsumption).sum)
        (rawTargetIntensity t)) := by
  obtain rfl := calculatePoolCompliance_ok hvs hy hp
  have hE : (vs.foldl (poolStep year t) initPoolAccum).totalEmissions =
      (vs.map fun v => v.fuelConsumption * v.ghgIntensity).sum := by
    rw [poolFold_totalEmissions]
    show (0 : ℚ) + _ = _
    rw [zero_add]
  have hF : (vs.foldl (poolStep year t) initPoolAccum).totalEnergyConsumption =
      (vs.map fun v => v.fuelConsumption).sum := by
    rw [poolFold_totalEnergyConsumption]
    show (0 : ℚ) + _ = _
    rw [zero_add]
  constructor
  · rw [poolResult_poolAverageIntensity, hE, hF]
  · rw [poolResult_poolComplianceScore, hE, hF]

/-- C7, witness: pooling 45000 MJ at 89.25 with 28000 MJ at 95.12 gives the
fuel-weighted mean, which differs from the arithmetic mean of the two
intensities. -/
theorem pool_weighted_average_witness :
    (poolComplianceResult [sampleVesselClean, sampleVesselDirty] 2025 (2 / 100)).summary.poolAverageIntensity
      = roundTo 2 (([sampleVesselClean, sampleVesselDirty].map
          fun v => v.fuelConsumption * v.ghgIntensity).sum /
        (([sampleVesselClean, sampleVesselDirty].map fun v => v.fuelConsumption).sum)) ∧
    (poolComplianceResult [sampleVesselClean, sampleVesselDirty] 2025 (2 / 100)).summary.poolComplianceScore
      = roundTo 1 (calculateComplianceScore
          (([sampleVesselClean, sampleVesselDirty].map
              fun v => v.fuelConsumption * v.ghgIntensity).sum /
            (([sampleVesselClean, sampleVesselDirty].map fun v => v.fuelConsumption).sum))
          (rawTargetIntensity (2 / 100))) ∧
    ([sampleVesselClean, sampleVesselDirty].map
        fun v => v.fuelConsumption * v.ghgIntensity).sum /
      (([sampleVesselClean, sampleVesselDirty].map fun v => v.fuelConsumption).sum) ≠
      (sampleVesselClean.ghgIntensity + sampleVesselDirty.ghgIntensity) / 2 := by
  have h := pool_weighted_average [sampleVesselClean, sampleVesselDirty] 2025 (2 / 100)
    (poolComplianceResult [sampleVesselClean, sampleVesselDirty] 2025 (2 / 100))
    (by simp) truthyTargets_2025 (by simp [calculatePoolCompliance, truthyTargets_2025])
  refine ⟨h.1, h.2, ?_⟩
  norm_num [sampleVesselClean, sampleVesselDirty]

/-- C2, counterexample.  Pool aggregation is NOT computed from the unrounded
per-vessel values: three copies of the spec's compliant scenario vessel each
have a raw balance of 0.003906 tCO2eq (display-rounding to 0.00), and the
code's pool balance is 0, whereas aggregating the unrounded balances and
rounding only at output would give 0.01. -/
theorem unrounded_aggregation_counterexample :
    (calculatePoolCompliance
        [sampleVesselClean, sampleVesselClean, sampleVesselClean] 2025).map
      (fun p => p.summary.poolComplianceBalance) = Except.ok 0 ∧
    roundTo 2 (([sampleVesselClean, sampleVesselClean, sampleVesselClean].map
      fun v => rawComplianceBalance v (2 / 100)).sum) = 1 / 100 := by
  have h : calculatePoolCompliance
      [sampleVesselClean, sampleVesselClean, sampleVesselClean] 2025 =
      .ok (poolComplianceResult
        [sampleVesselClean, sampleVesselClean, sampleVesselClean] 2025 (2 / 100)) := by
    simp [calculatePoolCompliance, truthyTargets_2025]
  constructor
  · rw [h]
    simp only [Except.map]
    rw [poolResult_poolComplianceBalance, poolFold_totalComplianceBalance]
    show Except.ok (roundTo 2 ((0 : ℚ) + _)) = _
    rw [zero_add]
    simp only [List.map_cons, List.map_nil, List.sum_cons, List.sum_nil]
    norm_num [roundTo, rawComplianceBalance, rawDeviation, rawTargetIntensity,
      referenceGHGIntensity, sampleVesselClean, Int.floor_eq_iff]
  · simp only [List.map_cons, List.map_nil, List.sum_cons, List.sum_nil]
    norm_num [roundTo, rawComplianceBalance, rawDeviation, rawTargetIntensity,
      referenceGHGIntensity, sampleVesselClean, Int.floor_eq_iff]

/-- C2, amended.  The energy totals (`totalEnergyConsumption`,
`totalEmissions`, and hence `poolAverageIntensity`) are aggregated from the
raw unrounded inputs, but the balance and penalty aggregates
(`poolComplianceBalance`, `totalPotentialPenalty`, and likewise the
deficit/surplus totals) are accumulated from the per-vessel
display-rounded result fields, so per-vessel rounding does feed into pool
aggregation. -/
theorem rounded_values_feed_aggregation (vs : List Vessel) (year : ℕ) (t : ℚ)
    (p : PoolResult) (hvs : vs ≠ [])
    (hy : truthyLookup complianceTargets year = some t)
    (hp : calculatePoolCompliance vs year = .ok p) :
    p.summary.totalEnergyConsumption =
      roundTo 0 ((vs.map fun v => v.fuelConsumption).sum) ∧
    p.summary.totalEmissions =
      roundTo 0 ((vs.map fun v => v.fuelConsumption * v.ghgIntensity).sum) ∧
    p.summary.poolComplianceBalance =
      roundTo 2 ((vs.map fun v => roundTo 2 (rawComplianceBalance v t)).sum) ∧
    p.summary.totalPotentialPenalty =
      roundTo 2 ((vs.map fun v => roundTo 2 (rawPotentialPenalty v year t)).sum) := by
  obtain rfl := calculatePoolCompliance_ok hvs hy hp
  refine ⟨?_, ?_, ?_, ?_⟩
  · rw [poolResult_totalEnergyConsumption, poolFold_totalEnergyConsumption]
    show roundTo 0 ((0 : ℚ) + _) = _
    rw [zero_add]
  · rw [poolResult_totalEmissions, poolFold_totalEmissions]
    show roundTo 0 ((0 : ℚ) + _) = _
    rw [zero_add]
  · rw [poolResult_poolComplianceBalance, poolFold_totalComplianceBalance]
    show roundTo 2 ((0 : ℚ) + _) = _
    rw [zero_add]
  · rw [poolResult_totalPotentialPenalty, poolFold_totalPotentialPenalty]
    show roundTo 2 ((0 : ℚ) + _) = _
    rw [zero_add]

/-- C2, witness for the amended theorem: the two sample vessels in 2025. -/
theorem rounded_values_feed_aggregation_witness :
    (poolComplianceResult [sampleVesselClean, sampleVesselDirty] 2025 (2 / 100)).summary.totalEnergyConsumption
      = roundTo 0 (([sampleVesselClean, sampleVesselDirty].map
          fun v => v.fuelConsumption).sum) ∧
    (poolComplianceResult [sampleVesselClean, sampleVesselDirty] 2025 (2 / 100)).summary.totalEmissions
      = roundTo 0 (([sampleVesselClean, sampleVesselDirty].map
          fun v => v.fuelConsumption * v.ghgIntensity).sum) ∧
    (poolComplianceResult [sampleVesselClean, sampleVesselDirty] 2025 (2 / 100)).summary.poolComplianceBalance
      = roundTo 2 (([sampleVesselClean, sampleVesselDirty].map
          fun v => roundTo 2 (rawComplianceBalance v (2 / 100))).sum) ∧
    (poolComplianceResult [sampleVesselClean, sampleVesselDirty] 2025 (2 / 100)).summary.totalPotentialPenalty
      = roundTo 2 (([sampleVesselClean, sampleVesselDirty].map
          fun v => roundTo 2 (rawPotentialPenalty v 2025 (2 / 100))).sum) :=
  rounded_values_feed_aggregation [sampleVesselClean, sampleVesselDirty] 2025 (2 / 100) _
    (by simp) truthyTargets_2025 (by simp [calculatePoolCompliance, truthyTargets_2025])

end FuelEU
